import Mathlib

/-!
# Verification of the xctestrunner test-execution engine

A shallow embedding, in Lean 4, of the core logic of google/xctestrunner:
the exit-code taxonomy (`runner_exit_codes.py`), the xcodebuild process
supervisor (`xcodebuild_test_executor.py`), the simulator lifecycle
controller and simctl wrapper (`simulator_util.py`), the logic-test spawner
(`logic_test_util.py`), the session coordinator's directory cleanup
(`xctest_session.py`), the simulator-test retry planner
(`ios_test_runner.py`) and the profile OS-version normalizer
(`simtype_profile.py`).

External effects (child processes, the filesystem, log files) are modelled
as explicit inputs: each attempt of a supervised run is described by an
`AttemptEnv` record carrying the observed output lines and probe outcomes,
and the filesystem is a list of existing directory paths.  Machine floats
produced by the version normalizer are modelled as rationals.
-/

namespace XCTestRunner

/-! ## String utilities (Python substring / split / int semantics) -/

/-- Prefix test on character lists (`sub` is a prefix of `s`). -/
def listStartsWith : List Char → List Char → Bool
  | _, [] => true
  | [], _ :: _ => false
  | c :: cs, p :: ps => c = p && listStartsWith cs ps

/-- Python `sub in s` substring containment on character lists. -/
def containsSub : List Char → List Char → Bool
  | s, sub =>
    listStartsWith s sub ||
      match s with
      | [] => false
      | _ :: rest => containsSub rest sub

/-- Python `sub in s` substring containment on strings. -/
def strIn (sub s : String) : Bool := containsSub s.data sub.data

/-- Splits a character list on the character `'.'`, Python `s.split('.')`. -/
def splitOnDot : List Char → List (List Char)
  | [] => [[]]
  | c :: rest =>
    match splitOnDot rest with
    | [] => [[c]]
    | h :: t => if c = '.' then [] :: h :: t else (c :: h) :: t

/-- Parses a nonempty all-digit character list as a natural number,
Python `int(s)` restricted to canonical nonnegative digit strings. -/
def parseNatAux : List Char → ℕ → Option ℕ
  | [], acc => some acc
  | c :: rest, acc =>
    if c.isDigit then parseNatAux rest (acc * 10 + (c.toNat - 48)) else none

/-- Python `int(s)` on a canonical nonnegative digit string; `none` when the
string is empty or holds a non-digit. -/
def parseNat : List Char → Option ℕ
  | [] => none
  | c :: rest => parseNatAux (c :: rest) 0

/-! ## `runner_exit_codes.py`: the EXITCODE enumeration -/

/-- `EXITCODE.SUCCEEDED` -/
def EXITCODE.SUCCEEDED : ℕ := 0
/-- `EXITCODE.ERROR` -/
def EXITCODE.ERROR : ℕ := 1
/-- `EXITCODE.UNKNOWN` -/
def EXITCODE.UNKNOWN : ℕ := 10
/-- `EXITCODE.FAILED` -/
def EXITCODE.FAILED : ℕ := 11
/-- `EXITCODE.TEST_NOT_START` -/
def EXITCODE.TEST_NOT_START : ℕ := 12
/-- `EXITCODE.NEED_REBOOT_DEVICE` -/
def EXITCODE.NEED_REBOOT_DEVICE : ℕ := 13
/-- `EXITCODE.NEED_RECREATE_SIM` -/
def EXITCODE.NEED_RECREATE_SIM : ℕ := 14
/-- `EXITCODE.SIM_ERROR` -/
def EXITCODE.SIM_ERROR : ℕ := 15

/-- The closed exit-code taxonomy of `runner_exit_codes.EXITCODE`. -/
def exitCodeTaxonomy : Finset ℕ :=
  {EXITCODE.SUCCEEDED, EXITCODE.ERROR, EXITCODE.UNKNOWN, EXITCODE.FAILED,
   EXITCODE.TEST_NOT_START, EXITCODE.NEED_REBOOT_DEVICE,
   EXITCODE.NEED_RECREATE_SIM, EXITCODE.SIM_ERROR}

/-! ## `simtype_profile.py` (xctestrunner copy): `_extra_os_version`

The source parses an OS version string such as `10.3.3`, `10.255.255` or
`65535.255.255` and returns a Python float.  Floats are modelled as `ℚ`;
`float(f"{major}.{minor}")` is `major + minor / 10 ^ d` where `d` is the
number of decimal digits of `minor` as printed by the f-string. -/

/-- Number of decimal digits of `n` (fuel-indexed helper). -/
def decDigitsAux : ℕ → ℕ → ℕ
  | 0, _ => 1
  | fuel + 1, n => if n < 10 then 1 else decDigitsAux fuel (n / 10) + 1

/-- Number of decimal digits in the canonical decimal print of `n`. -/
def decDigits (n : ℕ) : ℕ := decDigitsAux (n + 1) n

/-- `_extra_os_version` of
`src/xctestrunner/simulator_control/simtype_profile.py`:
splits on `'.'`, parses `major` (and `minor` when present), returns
`999.99` when `major >= 65535`, `major.99` when `minor >= 99`,
`float(f"{major}.{minor}")` otherwise, and `float(major)` for a
single-component string.  `none` models the `int()` exceptions. -/
def extraOsVersion (s : String) : Option ℚ :=
  match splitOnDot s.data with
  | [] => none
  | p0 :: rest =>
    match parseNat p0 with
    | none => none
    | some major =>
      if major ≥ 65535 then some ((99999 : ℚ) / 100)
      else
        match rest with
        | [] => some (major : ℚ)
        | p1 :: _ =>
          match parseNat p1 with
          | none => none
          | some minor =>
            if minor ≥ 99 then some ((major : ℚ) + 99 / 100)
            else some ((major : ℚ) + (minor : ℚ) / (10 : ℚ) ^ decDigits minor)

/-! ## `simulator_util.py`: `RunSimctlCommand`

One invocation of the underlying `simctl` command is an external event,
modelled by a `SimctlAttempt` record holding its exit status and captured
stdout / stderr texts.  `RunSimctlCommand` consumes up to
`_SIMCTL_MAX_ATTEMPTS = 2` such events. -/

/-- The characters stripped by Python `str.strip()`. -/
def pySpace (c : Char) : Bool :=
  c = ' ' || c = '\t' || c = '\n' || c = '\r' || c = '\x0b' || c = '\x0c'

/-- Python `s.strip()`. -/
def pyStrip (s : String) : String :=
  ⟨((s.data.dropWhile pySpace).reverse.dropWhile pySpace).reverse⟩

/-- `ios_constants.CORESIMULATOR_INTERRUPTED_ERROR` -/
def CORESIMULATOR_INTERRUPTED_ERROR : String :=
  "CoreSimulatorService connection interrupted"

/-- `ios_constants.CORESIMULATOR_CHANGE_ERROR` -/
def CORESIMULATOR_CHANGE_ERROR : String :=
  "CoreSimulator detected Xcode.app relocation or CoreSimulatorService version change."

/-- One execution of the underlying command: its exit status and the
captured stdout and stderr. -/
structure SimctlAttempt where
  exitCode : Int
  stdout : String
  stderr : String

/-- The `output` value `RunSimctlCommand` computes for one execution:
stdout alone when stderr holds the CoreSimulator-change signature,
otherwise `'\n'.join([stdout, stderr])`; stripped either way. -/
def simctlOutput (a : SimctlAttempt) : String :=
  pyStrip (if strIn CORESIMULATOR_CHANGE_ERROR a.stderr
           then a.stdout else a.stdout ++ "\n" ++ a.stderr)

/-- The retry loop of `RunSimctlCommand`, fuel-indexed by the remaining
iterations of `range(_SIMCTL_MAX_ATTEMPTS)`.  Returns the number of
executions performed together with the result: `Except.error` models the
raised `ios_errors.SimError`, carrying the message text. -/
def runSimctlFrom (attempts : ℕ → SimctlAttempt) (i : ℕ) :
    ℕ → ℕ × Except String String
  | 0 => (0, Except.error "")
  | fuel + 1 =>
    let a := attempts i
    let output := simctlOutput a
    if a.exitCode ≠ 0 then
      if fuel ≠ 0 ∧ strIn CORESIMULATOR_INTERRUPTED_ERROR output = true then
        let r := runSimctlFrom attempts (i + 1) fuel
        (r.1 + 1, r.2)
      else (1, Except.error output)
    else (1, Except.ok output)

/-- `RunSimctlCommand`: runs the command, retrying once on the transient
CoreSimulator-interruption signature (`_SIMCTL_MAX_ATTEMPTS = 2`). -/
def RunSimctlCommand (attempts : ℕ → SimctlAttempt) : ℕ × Except String String :=
  runSimctlFrom attempts 0 2


/-! ## `xctest_session.py`: session directories, `Prepare` and `Close`

The filesystem is modelled as the list of existing directories;
`shutil.rmtree` is removal from the list, `os.path.exists` is membership.
Only the directory bookkeeping of the session is modelled (the fields
`_work_dir`, `_delete_work_dir`, `_output_dir`, `_delete_output_dir`). -/

/-- `shutil.rmtree`. -/
def rmtree (fs : List String) (p : String) : List String :=
  fs.filter (fun q => q ≠ p)

/-- The directory bookkeeping fields of `XctestSession`. -/
structure SessionDirs where
  workDir : Option String
  deleteWorkDir : Bool
  outputDir : Option String
  deleteOutputDir : Bool

/-- `XctestSession.__init__`: records the caller's directories and sets both
delete flags to `True`. -/
def initSession (workDir outputDir : Option String) : SessionDirs :=
  ⟨workDir, true, outputDir, true⟩

/-- One directory clause of `XctestSession.Close`: remove the directory when
its delete flag is set, the path is truthy and the directory exists. -/
def closeDir (dir : Option String) (delete : Bool) (fs : List String) :
    List String :=
  match dir with
  | some d => if delete ∧ d ≠ "" ∧ d ∈ fs then rmtree fs d else fs
  | none => fs

/-- `XctestSession.Close`: work directory clause, then output directory
clause. -/
def closeSession (s : SessionDirs) (fs : List String) : List String :=
  closeDir s.outputDir s.deleteOutputDir (closeDir s.workDir s.deleteWorkDir fs)

/-- `os.mkdir` guarded by `os.path.exists` as in `Prepare`. -/
def mkdirIfAbsent (fs : List String) (d : String) : List String :=
  if d ∈ fs then fs else d :: fs

/-- One directory clause of `XctestSession.Prepare`: a truthy caller
directory is created if absent and its delete flag cleared; otherwise a
fresh `tempfile.mkdtemp` directory (`tmp`) is minted with the delete flag
set. -/
def prepareDir (given : Option String) (tmp : String) (fs : List String) :
    Option String × Bool × List String :=
  match given with
  | some d =>
    if d ≠ "" then (some d, false, mkdirIfAbsent fs d)
    else (some tmp, true, tmp :: fs)
  | none => (some tmp, true, tmp :: fs)

/-- The directory-handling prefix of `XctestSession.Prepare` (work
directory clause, then output directory clause). -/
def prepareDirs (s : SessionDirs) (fs : List String) (tmpW tmpO : String) :
    SessionDirs × List String :=
  let w := prepareDir s.workDir tmpW fs
  let o := prepareDir s.outputDir tmpO w.2.2
  (⟨w.1, w.2.1, o.1, o.2.1⟩, o.2.2)

/-! ## `logic_test_util.py`: `RunLogicTestOnSim`

Environments are finite maps `String → Option String` built by update;
Python `dict` assignment is function update.  The helpers of
`xcode_info_util`, `bundle_util` and the absent `version_util` module are
external observations, passed in through `LogicTestInputs`
(`osVersionNumber` is the value `version_util.GetVersionNumber(os_version)`
when `os_version` is truthy). -/

/-- The empty environment (`simctl_env_vars = {}`). -/
def emptyEnv : String → Option String := fun _ => none

/-- Python dict assignment `e[k] = v`. -/
def updEnv (e : String → Option String) (k v : String) :
    String → Option String :=
  fun q => if q = k then some v else e q

/-- A Python dict built from a key/value list (later entries win). -/
def dictOf (l : List (String × String)) : String → Option String :=
  l.foldl (fun e kv => updEnv e kv.1 kv.2) emptyEnv

/-- `_SIMCTL_ENV_VAR_PREFIX` -/
def SIMCTL_ENV_VAR_PREFIX : String := "SIMCTL_CHILD_"

/-- The inputs of `RunLogicTestOnSim`, with the external observations the
function makes (Xcode version, arch list of the test binary, tool paths,
the environment's `DEVELOPER_DIR`, and the child's exit status). -/
structure LogicTestInputs where
  simId : String
  testBundlePath : String
  envVars : List (String × String)
  args : List String
  testsToRun : List String
  osVersionNumber : Option ℕ
  xcodeVersionNumber : ℕ
  swift5FallbackLibsDir : String
  developerDir : Option String
  testArchs : List String
  sdkPlatformPath : String
  xctestToolPath : String
  childReturnCode : Int

/-- The environment `RunLogicTestOnSim` hands to the spawned child:
the `SIMCTL_CHILD_`-prefixed copies of `env_vars`, then
`NSUnbufferedIO=YES`, then the swift-5.0 fallback override
(Xcode ≥ 1100 and target OS version number < 1220), then `DEVELOPER_DIR`,
then the x86_64 DYLD fallback overrides. -/
def logicTestEnv (inp : LogicTestInputs) : String → Option String :=
  let e0 := inp.envVars.foldl
    (fun e kv => updEnv e (SIMCTL_ENV_VAR_PREFIX ++ kv.1) kv.2) emptyEnv
  let e1 := updEnv e0 "NSUnbufferedIO" "YES"
  let e2 :=
    match inp.osVersionNumber with
    | some v =>
      if 1100 ≤ inp.xcodeVersionNumber ∧ v < 1220 then
        updEnv e1 (SIMCTL_ENV_VAR_PREFIX ++ "DYLD_FALLBACK_LIBRARY_PATH")
          inp.swift5FallbackLibsDir
      else e1
    | none => e1
  let e3 :=
    match inp.developerDir with
    | some d => if d ≠ "" then updEnv e2 "DEVELOPER_DIR" d else e2
    | none => e2
  let platformDeveloperDir := inp.sdkPlatformPath ++ "/Developer"
  if "x86_64" ∈ inp.testArchs then
    updEnv
      (updEnv e3 (SIMCTL_ENV_VAR_PREFIX ++ "DYLD_FALLBACK_LIBRARY_PATH")
        (platformDeveloperDir ++ "/usr/lib"))
      (SIMCTL_ENV_VAR_PREFIX ++ "DYLD_FALLBACK_FRAMEWORK_PATH")
      (platformDeveloperDir ++ "/Library/Frameworks:" ++ platformDeveloperDir
        ++ "/Library/Private/Frameworks")
  else e3

/-- Python `','.join(l)`. -/
def joinComma : List String → String
  | [] => ""
  | [x] => x
  | x :: y :: rest => x ++ "," ++ joinComma (y :: rest)

/-- The command vector `RunLogicTestOnSim` spawns. -/
def logicTestCommand (inp : LogicTestInputs) : List String :=
  ["xcrun", "simctl", "spawn", "-s", inp.simId, inp.xctestToolPath]
    ++ inp.args
    ++ ["-XCTest",
        if inp.testsToRun = [] then "All" else joinComma inp.testsToRun,
        inp.testBundlePath]

/-- One spawned child process: its command vector and environment. -/
structure SpawnEvent where
  command : List String
  env : String → Option String

/-- `RunLogicTestOnSim`: the list of children it spawns and the exit code
it returns (`FAILED` on a non-zero child status, `SUCCEEDED` otherwise). -/
def runLogicTestOnSim (inp : LogicTestInputs) : List SpawnEvent × ℕ :=
  ([⟨logicTestCommand inp, logicTestEnv inp⟩],
   if inp.childReturnCode ≠ 0 then EXITCODE.FAILED else EXITCODE.SUCCEEDED)


/-! ## `simulator_util.py`: the `Simulator` object

The object caches its computed root-directory, log-directory and
`device.plist` handles (`_simulator_root_dir`, `_simulator_log_root_dir`,
`_device_plist_object`); the cache fields are part of the modelled state.
The filesystem carries the existing directories and, for each path, the
`device.plist` content: absent file, or file whose `state` field is absent,
or a `state` number. -/

/-- The states of `ios_constants.SimState`. -/
inductive SimState where
  | creating
  | shutdown
  | booted
  | unknown
deriving DecidableEq

/-- The error kinds the simulator paths can raise: `ios_errors.SimError`
with its message, `ios_errors.PlistError`, and the uncaught (OS-level)
error from opening an absent plist file. -/
inductive SimErr where
  | simError (msg : String)
  | plistError
  | fileNotFound
deriving DecidableEq

/-- The `Simulator` object: identity (cleared by `Delete`) and the three
lazily-computed caches. -/
structure SimulatorObj where
  simulatorId : Option String
  cachedRootDir : Option String
  cachedLogRootDir : Option String
  cachedPlistPath : Option String

/-- `Simulator.__init__`. -/
def mkSimulator (simulatorId : String) : SimulatorObj :=
  ⟨some simulatorId, none, none, none⟩

/-- The filesystem the simulator object observes. -/
structure SimFs where
  dirs : List String
  plistFile : String → Option (Option ℤ)

/-- The path of a simulator's root directory under the home directory. -/
def simRootPath (home id : String) : String :=
  home ++ "/Library/Developer/CoreSimulator/Devices/" ++ id

/-- The path of a simulator's log directory under the home directory. -/
def simLogPath (home id : String) : String :=
  home ++ "/Library/Logs/CoreSimulator/" ++ id

/-- The `Simulator.simulator_id` property: raises `SimError` once the
identity has been invalidated by `Delete`. -/
def simulatorIdProp (o : SimulatorObj) : Except SimErr String :=
  match o.simulatorId with
  | some i => Except.ok i
  | none =>
    Except.error
      (SimErr.simError "The simulator has not been created or has been deleted.")

/-- The `Simulator.simulator_root_dir` property, with its cache. -/
def simulatorRootDir (home : String) (o : SimulatorObj) :
    Except SimErr (String × SimulatorObj) :=
  match o.cachedRootDir with
  | some r => Except.ok (r, o)
  | none =>
    match simulatorIdProp o with
    | Except.error e => Except.error e
    | Except.ok i =>
      let r := simRootPath home i
      Except.ok (r, { o with cachedRootDir := some r })

/-- The `Simulator.simulator_log_root_dir` property, with its cache. -/
def simulatorLogRootDir (home : String) (o : SimulatorObj) :
    Except SimErr (String × SimulatorObj) :=
  match o.cachedLogRootDir with
  | some r => Except.ok (r, o)
  | none =>
    match simulatorIdProp o with
    | Except.error e => Except.error e
    | Except.ok i =>
      let r := simLogPath home i
      Except.ok (r, { o with cachedLogRootDir := some r })

/-- The `Simulator.device_plist_object` property: `none` when the
`device.plist` file does not exist (simulator absent or being created);
the handle is cached only when the file exists. -/
def devicePlistObject (home : String) (fs : SimFs) (o : SimulatorObj) :
    Except SimErr (Option String × SimulatorObj) :=
  match o.cachedPlistPath with
  | some p => Except.ok (some p, o)
  | none =>
    match simulatorRootDir home o with
    | Except.error e => Except.error e
    | Except.ok (r, o1) =>
      let p := r ++ "/device.plist"
      if (fs.plistFile p).isSome then
        Except.ok (some p, { o1 with cachedPlistPath := some p })
      else Except.ok (none, o1)

/-- `Plist.GetPlistField('state')`: opening an absent file raises an
OS-level error; an absent `state` key raises `PlistError`. -/
def getPlistStateField (fs : SimFs) (p : String) : Except SimErr ℤ :=
  match fs.plistFile p with
  | none => Except.error SimErr.fileNotFound
  | some none => Except.error SimErr.plistError
  | some (some v) => Except.ok v

/-- `Simulator.GetSimulatorState`: `Creating` when the metadata file does
not exist yet, the mapped state for the codes 0/1/3, `Unknown` otherwise
(the warning it logs formats `self.simulator_id`, so the invalidated
identity raises there). -/
def GetSimulatorState (home : String) (fs : SimFs) (o : SimulatorObj) :
    Except SimErr (SimState × SimulatorObj) :=
  match devicePlistObject home fs o with
  | Except.error e => Except.error e
  | Except.ok (none, o1) => Except.ok (SimState.creating, o1)
  | Except.ok (some p, o1) =>
    match getPlistStateField fs p with
    | Except.error e => Except.error e
    | Except.ok v =>
      if v = 0 then Except.ok (SimState.creating, o1)
      else if v = 1 then Except.ok (SimState.shutdown, o1)
      else if v = 3 then Except.ok (SimState.booted, o1)
      else
        match simulatorIdProp o1 with
        | Except.error e => Except.error e
        | Except.ok _ => Except.ok (SimState.unknown, o1)

/-- `Simulator.Delete`: dispatches the `simctl delete` command (reported by
`underlyingOk` when synchronous; an asynchronous delete detaches and cannot
fail here), removes the on-disk log directory, and invalidates the
identity. -/
def deleteSimulator (home : String) (fs : SimFs) (o : SimulatorObj)
    (asynchronously underlyingOk : Bool) :
    Except SimErr (SimulatorObj × SimFs) :=
  match simulatorIdProp o with
  | Except.error e => Except.error e
  | Except.ok _ =>
    if asynchronously ∨ underlyingOk = true then
      match simulatorLogRootDir home o with
      | Except.error e => Except.error e
      | Except.ok (lr, o1) =>
        Except.ok ({ o1 with simulatorId := none },
          { fs with dirs := rmtree fs.dirs lr })
    else Except.error (SimErr.simError "Failed to delete simulator")

/-! ## `xcodebuild_test_executor.py`: the process supervisor

One `xcodebuild` run is an external event: its stdout lines, whether the
startup watchdog fired (`CheckXcodebuildStuckThread.is_xcodebuild_stuck`),
whether the simulator system log exists, the outcomes of matching the three
crash patterns of `simulator_util` against the tail of that log, and the
app-installed probe.  The supervisor `Execute` consumes one event per
attempt of its retry loop. -/

/-- `ios_constants.SDK` -/
inductive SDK where
  | iphoneos
  | iphonesimulator
deriving DecidableEq

/-- `ios_constants.TestType` -/
inductive TestType where
  | xcuitest
  | xctest
  | logicTest
deriving DecidableEq

/-- `ios_constants.TEST_STARTED_SIGNAL` -/
def TEST_STARTED_SIGNAL : String := "Test Suite"
/-- `_BACKGROUND_TEST_RUNNER_ERROR` -/
def BACKGROUND_TEST_RUNNER_ERROR : String := "Failed to background test runner"
/-- `_PROCESS_EXISTED_OR_CRASHED_ERROR` -/
def PROCESS_EXISTED_OR_CRASHED_ERROR : String :=
  "The process did launch, but has since exited or crashed."
/-- `_REQUEST_DENIED_ERROR` -/
def REQUEST_DENIED_ERROR : String :=
  "The request was denied by service delegate (SBMainWorkspace) for reason"
/-- `_INIT_SIM_SERVICE_ERROR` -/
def INIT_SIM_SERVICE_ERROR : String :=
  "Failed to initiate service connection to simulator"
/-- `_TOO_MANY_INSTANCES_ALREADY_RUNNING` -/
def TOO_MANY_INSTANCES_ALREADY_RUNNING : String :=
  "Too many instances of this service are already running."
/-- `_LOST_CONNECTION_ERROR` -/
def LOST_CONNECTION_ERROR : String := "Lost connection to testmanagerd"
/-- `_LOST_CONNECTION_TO_DTSERVICEHUB_ERROR` -/
def LOST_CONNECTION_TO_DTSERVICEHUB_ERROR : String :=
  "Lost connection to DTServiceHub"

/-- Strips the literal `lit` from the front of `cs`. -/
def dropLit : List Char → List Char → Option (List Char)
  | [], cs => some cs
  | _ :: _, [] => none
  | p :: ps, c :: cs => if c = p then dropLit ps cs else none

/-- Matcher for the middle of a pattern `lit1 .* lit2` (re.search
semantics): some split of `cs` into a newline-free middle, the literal
`l2`, and — when `trail` — one further non-newline character (a trailing
regex `.`). -/
def midThenLit (l2 : List Char) (trail : Bool) : List Char → Bool
  | [] =>
    (match dropLit l2 [] with
     | some _ => !trail
     | none => false)
  | c :: rest =>
    (match dropLit l2 (c :: rest) with
     | some r =>
       if trail then
         (match r with
          | d :: _ => decide (d ≠ '\n')
          | [] => false)
       else true
     | none => false)
    || (decide (c ≠ '\n') && midThenLit l2 trail rest)

/-- `re.search` of the pattern `lit1 .* lit2` (plus a trailing `.` when
`trail`): tries every start position. -/
def searchPat (l1 l2 : List Char) (trail : Bool) : List Char → Bool
  | [] =>
    (match dropLit l1 [] with
     | some t => midThenLit l2 trail t
     | none => false)
  | c :: rest =>
    (match dropLit l1 (c :: rest) with
     | some t => midThenLit l2 trail t
     | none => false)
    || searchPat l1 l2 trail rest

/-- `re.search(_APP_UNKNOWN_TO_FRONTEND_PATTERN, s)`:
the pattern `Application ".*" is unknown to FrontBoard.` -/
def appUnknownToFrontBoard (s : String) : Bool :=
  searchPat "Application \"".data "\" is unknown to FrontBoard".data true s.data

/-- `re.search(_DEVICE_TYPE_WAS_NULL_PATTERN, s)`:
the pattern `DTDeviceKit: deviceType from .* was NULL`. -/
def deviceTypeWasNull (s : String) : Bool :=
  searchPat "DTDeviceKit: deviceType from ".data " was NULL".data false s.data

/-- The configuration of an `XcodebuildTestExecutor`. -/
structure ExecuteConfig where
  sdk : Option SDK
  testType : Option TestType
  deviceId : Option String
  succeededSignal : Option String
  failedSignal : Option String
  appBundleId : Option String

/-- One `xcodebuild` run as observed by `Execute`. -/
structure AttemptEnv where
  lines : List String
  stuck : Bool
  simLogExists : Bool
  xctestCrashInLog : Bool
  appCrashInLog : Bool
  coreSimCrashInLog : Bool
  appInstalled : Bool

/-- The signal-scanning state threaded through the line loop of `Execute`:
`test_started`, `test_succeeded`, `test_failed`. -/
structure ScanState where
  started : Bool
  succeeded : Bool
  failed : Bool
deriving DecidableEq

/-- The initial scanning state. -/
def initScan : ScanState := ⟨false, false, false⟩

/-- Whether an optional signal string occurs in a line (an absent signal
never matches). -/
def optSigIn (sig : Option String) (line : String) : Bool :=
  match sig with
  | some s => strIn s line
  | none => false

/-- Python truthiness of an optional string. -/
def optTruthy : Option String → Bool
  | some s => decide (s ≠ "")
  | none => false

/-- One iteration of the stdout line loop of `Execute`: before the test has
started, a line containing `Test Suite` starts it (that same line is not
scanned for result signals); after it has started, the succeeded / failed
signals are scanned. -/
def scanLine (succSig failSig : Option String) (st : ScanState)
    (line : String) : ScanState :=
  if st.started = false then
    { st with started := strIn TEST_STARTED_SIGNAL line }
  else
    { st with
      succeeded := st.succeeded || optSigIn succSig line,
      failed := st.failed || optSigIn failSig line }

/-- The line loop of `Execute` over the lines of one run. -/
def scanLines (succSig failSig : Option String) (st : ScanState)
    (lines : List String) : ScanState :=
  lines.foldl (scanLine succSig failSig) st

/-- The captured output of one run (the concatenation of its lines;
`readline` keeps the newline terminators inside the lines). -/
def outputOf (lines : List String) : String := String.join lines

/-- `max_attempts` by SDK: `_SIM_TEST_MAX_ATTEMPTS = 3`,
`_DEVICE_TEST_MAX_ATTEMPTS = 2`, otherwise 1. -/
def maxAttempts : Option SDK → ℕ
  | some SDK.iphonesimulator => 3
  | some SDK.iphoneos => 2
  | _ => 1

/-- `_GetResultForXcodebuildStuck`: reboot-device for a real device,
test-not-start otherwise. -/
def resultForXcodebuildStuck (cfg : ExecuteConfig) : ℕ :=
  if cfg.sdk = some SDK.iphoneos then EXITCODE.NEED_REBOOT_DEVICE
  else EXITCODE.TEST_NOT_START

/-- `_NeedRebootSim`. -/
def needRebootSim (cfg : ExecuteConfig) (out : String) : Bool :=
  decide (cfg.testType = some TestType.xcuitest)
    && strIn BACKGROUND_TEST_RUNNER_ERROR out

/-- `_NeedRecreateSim`. -/
def needRecreateSim (out : String) : Bool :=
  appUnknownToFrontBoard out || strIn REQUEST_DENIED_ERROR out
    || strIn INIT_SIM_SERVICE_ERROR out

/-- The device-path relaunch signatures. -/
def deviceRelaunchError (out : String) : Bool :=
  deviceTypeWasNull out || strIn LOST_CONNECTION_ERROR out
    || strIn LOST_CONNECTION_TO_DTSERVICEHUB_ERROR out

/-- The simulator-path relaunch condition (the try-block that raises
`SimError` to relaunch): a crash signature in the tail of the simulator
log (xctest pattern for logic tests, app pattern otherwise, or the
CoreSimulator pattern), the process-exited message, the
CoreSimulator-interruption signature, or the app no longer installed. -/
def simRelaunchError (cfg : ExecuteConfig) (env : AttemptEnv) (out : String) :
    Bool :=
  (optTruthy cfg.deviceId && env.simLogExists
    && ((decide (cfg.testType = some TestType.logicTest)
          && env.xctestCrashInLog)
        || (decide (cfg.testType ≠ some TestType.logicTest)
            && env.appCrashInLog)
        || env.coreSimCrashInLog))
  || strIn PROCESS_EXISTED_OR_CRASHED_ERROR out
  || strIn CORESIMULATOR_INTERRUPTED_ERROR out
  || (optTruthy cfg.appBundleId && !env.appInstalled)

/-- The attempt loop of `XcodebuildTestExecutor.Execute`, fuel-indexed by
the remaining iterations of `range(max_attempts)` (`fuel ≠ 0` after
destructuring is exactly `i < max_attempts - 1`).  `none` models the
(unreachable) fall-through of the loop. -/
def executeFrom (cfg : ExecuteConfig) (envs : ℕ → AttemptEnv)
    (st : ScanState) (i : ℕ) : ℕ → Option ℕ
  | 0 => none
  | fuel + 1 =>
    let env := envs i
    let st1 := scanLines cfg.succeededSignal cfg.failedSignal st env.lines
    if st1.started then
      some (if st1.succeeded then EXITCODE.SUCCEEDED
            else if st1.failed then EXITCODE.FAILED
            else EXITCODE.ERROR)
    else if env.stuck then some (resultForXcodebuildStuck cfg)
    else
      let out := outputOf env.lines
      if cfg.sdk = some SDK.iphoneos then
        if deviceRelaunchError out = true ∧ fuel ≠ 0 then
          executeFrom cfg envs st1 (i + 1) fuel
        else if strIn TOO_MANY_INSTANCES_ALREADY_RUNNING out then
          some EXITCODE.NEED_REBOOT_DEVICE
        else some EXITCODE.TEST_NOT_START
      else if cfg.sdk = some SDK.iphonesimulator then
        if needRebootSim cfg out then some EXITCODE.NEED_REBOOT_DEVICE
        else if needRecreateSim out then some EXITCODE.NEED_RECREATE_SIM
        else if simRelaunchError cfg env out = true ∧ fuel ≠ 0 then
          executeFrom cfg envs st1 (i + 1) fuel
        else some EXITCODE.TEST_NOT_START
      else some EXITCODE.TEST_NOT_START

/-- `XcodebuildTestExecutor.Execute`. -/
def Execute (cfg : ExecuteConfig) (envs : ℕ → AttemptEnv) : Option ℕ :=
  executeFrom cfg envs initScan 0 (maxAttempts cfg.sdk)

/-- Whether some line of a run contains the test-started signal. -/
def startedIn (lines : List String) : Bool :=
  lines.any (strIn TEST_STARTED_SIGNAL)

/-- The index of the first line containing the test-started signal. -/
def firstStartIdx (lines : List String) : ℕ :=
  lines.findIdx (strIn TEST_STARTED_SIGNAL)

/-- Whether an optional signal occurs in a line strictly after the first
line containing the test-started signal. -/
def sigAfterStart (sig : Option String) (lines : List String) : Bool :=
  (lines.drop (firstStartIdx lines + 1)).any (optSigIn sig)

/-! ## `ios_test_runner.py`: `_RunSimulatorTest`, the retry planner

The planner's interactions with the simulator controller and the session
are recorded as a trace of actions; each attempt's `session.RunTest` result
and the id a fresh `CreateNewSimulator` would mint are external events
(`PlannerEnv`).  The model covers executions in which the simulator-control
calls themselves do not raise (`_SimulatorTest` maps a raised `SimError`
to `EXITCODE.SIM_ERROR`). -/

/-- The observable planner actions. -/
inductive SimAction where
  | create (id : String)
  | runTest (id : String)
  | quitSimApp
  | shutdown (id : String)
  | delete (id : String)
deriving DecidableEq

/-- One attempt's external events for the planner. -/
structure PlannerEnv where
  newSimId : String
  exitCode : ℕ

/-- The `finally` block of the attempt loop: quit Simulator.app on
Xcode < 900; then shutdown only (when rebooting for the next attempt), or
shutdown-then-delete on Xcode < 900, or plain delete. -/
def plannerTeardown (xcodeVer : ℕ) (reboot : Bool) (simId : String) :
    List SimAction :=
  (if xcodeVer < 900 then [SimAction.quitSimApp] else []) ++
    (if reboot then [SimAction.shutdown simId]
     else (if xcodeVer < 900 then [SimAction.shutdown simId] else [])
       ++ [SimAction.delete simId])

/-- The attempt loop of `_RunSimulatorTest`, fuel-indexed by the remaining
iterations of `range(max_attempts)` (`fuel ≠ 0` after destructuring is
`i < max_attempts - 1`).  Returns the action trace and the exit code. -/
def runSimulatorTestFrom (xcodeVer : ℕ) (envs : ℕ → PlannerEnv) (i : ℕ)
    (rebootSim : Bool) (simId : String) : ℕ → List SimAction × ℕ
  | 0 => ([], EXITCODE.UNKNOWN)
  | fuel + 1 =>
    let env := envs i
    let simId1 := if rebootSim then simId else env.newSimId
    let acts0 :=
      (if rebootSim then [] else [SimAction.create env.newSimId])
        ++ [SimAction.runTest simId1]
    if fuel ≠ 0 ∧ env.exitCode = EXITCODE.NEED_RECREATE_SIM then
      let r := runSimulatorTestFrom xcodeVer envs (i + 1) false simId1 fuel
      (acts0 ++ plannerTeardown xcodeVer false simId1 ++ r.1, r.2)
    else if fuel ≠ 0 ∧ env.exitCode = EXITCODE.NEED_REBOOT_DEVICE then
      let r := runSimulatorTestFrom xcodeVer envs (i + 1) true simId1 fuel
      (acts0 ++ plannerTeardown xcodeVer true simId1 ++ r.1, r.2)
    else
      (acts0 ++ plannerTeardown xcodeVer false simId1, env.exitCode)

/-- `_RunSimulatorTest`: quits Simulator.app first on Xcode < 900, then
runs the attempt loop with `max_attempts = 3`. -/
def runSimulatorTest (xcodeVer : ℕ) (envs : ℕ → PlannerEnv) :
    List SimAction × ℕ :=
  let r := runSimulatorTestFrom xcodeVer envs 0 false "" 3
  ((if xcodeVer < 900 then [SimAction.quitSimApp] else []) ++ r.1, r.2)

/-- Counts the `runTest` actions of a trace (the supervisor invocations). -/
def countRunTests (trace : List SimAction) : ℕ :=
  trace.countP (fun a => match a with | SimAction.runTest _ => true | _ => false)

/-! # THEOREMS

Everything below this point is a theorem; all definitions are above. -/

/-! ### Facts about `splitOnDot` -/

theorem splitOnDot_ne_nil (cs : List Char) : splitOnDot cs ≠ [] := by
  induction cs with
  | nil => simp [splitOnDot]
  | cons c rest ih =>
    rcases heq : splitOnDot rest with _ | ⟨a, t⟩
    · exact absurd heq ih
    · by_cases hc : c = '.' <;> simp [splitOnDot, heq, hc]

theorem splitOnDot_dot_cons (b : List Char) :
    splitOnDot ('.' :: b) = [] :: splitOnDot b := by
  rcases heq : splitOnDot b with _ | ⟨x, t⟩
  · exact absurd heq (splitOnDot_ne_nil b)
  · simp [splitOnDot, heq]

theorem splitOnDot_append (a b : List Char) (ha : ('.' : Char) ∉ a) :
    splitOnDot (a ++ '.' :: b) = a :: splitOnDot b := by
  induction a with
  | nil => simpa using splitOnDot_dot_cons b
  | cons c cs ih =>
    have hc : c ≠ '.' := fun h => ha (h ▸ List.mem_cons_self c cs)
    have hcs : ('.' : Char) ∉ cs := fun h => ha (List.mem_cons_of_mem c h)
    show splitOnDot (c :: (cs ++ '.' :: b)) = (c :: cs) :: splitOnDot b
    simp [splitOnDot, ih hcs, hc]

/-- Helper: the version string `x.m.y` assembled from dot-free components
splits into components `x`, `m` and the splitting of `y`. -/
theorem splitOnDot_three (x m y : String)
    (hx : ('.' : Char) ∉ x.data) (hm : ('.' : Char) ∉ m.data) :
    splitOnDot (x ++ "." ++ m ++ "." ++ y).data
      = x.data :: m.data :: splitOnDot y.data := by
  have : (x ++ "." ++ m ++ "." ++ y).data
      = x.data ++ '.' :: (m.data ++ '.' :: y.data) := by
    simp [String.data_append]
  rw [this, splitOnDot_append _ _ hx, splitOnDot_append _ _ hm]

/-- C8, counterexample.  The claim says every version string other than the
`x.255.y` / `x.99.y` sentinel forms (and `65535.*.*`) is mapped to the float
`major.minor`.  The string `"1.100.0"` is such a string, and the claim
demands `float("1.100") = 1.1` for it; the code's normalizer
(`_extra_os_version`, xctestrunner copy) instead collapses every minor
component `>= 99` and returns `1.99`. -/
theorem C8_counterexample :
    extraOsVersion "1.100.0" = some ((1 : ℚ) + 99 / 100) ∧
      ((1 : ℚ) + 99 / 100) ≠ (1 : ℚ) + 100 / 1000 :=
  ⟨by rfl, by norm_num⟩

/-- C8, amended.  `_extra_os_version` on a version string `x.m.y` (with
dot-free first and second components parsing to `major` and `minor`):
when `major < 65535` and `minor ≥ 99` — which covers both sentinel forms
`x.255.y` and `x.99.y` — the result is the float `x.99`; when
`major ≥ 65535` (the "no upper bound" sentinel `65535.*.*`) the result is
the very large float `999.99`, whatever the later components hold; and any
other multi-component string, that is `minor < 99`, yields the float
`major.minor`. -/
theorem C8_theorem (x m y : String) (major minor : ℕ)
    (hx : ('.' : Char) ∉ x.data) (hm : ('.' : Char) ∉ m.data)
    (hmaj : parseNat x.data = some major)
    (hmin : parseNat m.data = some minor) :
    (major < 65535 → 99 ≤ minor →
      extraOsVersion (x ++ "." ++ m ++ "." ++ y)
        = some ((major : ℚ) + 99 / 100)) ∧
    (major < 65535 → minor < 99 →
      extraOsVersion (x ++ "." ++ m ++ "." ++ y)
        = some ((major : ℚ) + (minor : ℚ) / (10 : ℚ) ^ decDigits minor)) ∧
    (65535 ≤ major →
      extraOsVersion (x ++ "." ++ m ++ "." ++ y)
        = some ((99999 : ℚ) / 100)) := by
  have hsplit := splitOnDot_three x m y hx hm
  refine ⟨fun hlt hge => ?_, fun hlt hge => ?_, fun hge => ?_⟩
  · simp only [extraOsVersion]
    rw [hsplit]
    simp [hmaj, hmin, not_le.mpr hlt, hge]
  · simp only [extraOsVersion]
    rw [hsplit]
    simp [hmaj, hmin, not_le.mpr hlt, not_le.mpr hge]
  · simp only [extraOsVersion]
    rw [hsplit]
    simp [hmaj, hge]

/-- Witness for `C8_theorem` at the sentinel input `10.255.255`. -/
theorem C8_witness :
    (('.' : Char) ∉ "10".data) ∧ (('.' : Char) ∉ "255".data) ∧
      parseNat "10".data = some 10 ∧ parseNat "255".data = some 255 ∧
      (10 < 65535 ∧ 99 ≤ 255) ∧
      extraOsVersion ("10" ++ "." ++ "255" ++ "." ++ "255")
        = some ((10 : ℚ) + 99 / 100) :=
  ⟨by decide, by decide, by rfl, by rfl, ⟨by decide, by decide⟩,
    ( C8_theorem "10" "255" "255" 10 255 (by decide) (by decide) (by rfl)
      (by rfl)).1 (by decide) (by decide)⟩


/-- C5, counterexample.  The claim says a non-zero exit without the
transient signature raises a `SimulatorError` carrying the captured
*combined* stdout+stderr text.  When stderr holds the CoreSimulator-change
signature, the code discards stderr and the raised error carries stdout
alone: on exit 1 with stdout `"foo"` and the change signature on stderr,
the error text is `"foo"`, not the combined text. -/
theorem C5_counterexample :
    RunSimctlCommand
        (fun _ => ⟨1, "foo", CORESIMULATOR_CHANGE_ERROR⟩)
      = (1, Except.error "foo") ∧
    ("foo" : String) ≠ pyStrip ("foo" ++ "\n" ++ CORESIMULATOR_CHANGE_ERROR) :=
  ⟨by rfl, by decide⟩

/-- C5, amended.  `RunSimctlCommand` executes the underlying command at
most twice; a second execution happens only when the first exits non-zero
with computed output containing the CoreSimulatorService-interruption
signature; and every raised `SimulatorError` carries the captured output
text of a failing execution — the stripped combination
`stdout + '\n' + stderr`, except stdout alone when stderr holds the
CoreSimulator-change signature. -/
theorem C5_theorem (attempts : ℕ → SimctlAttempt) :
    (RunSimctlCommand attempts).1 ≤ 2 ∧
    ((RunSimctlCommand attempts).1 = 2 →
      (attempts 0).exitCode ≠ 0 ∧
        strIn CORESIMULATOR_INTERRUPTED_ERROR (simctlOutput (attempts 0))
          = true) ∧
    (∀ e, (RunSimctlCommand attempts).2 = Except.error e →
      ∃ i < 2, e = simctlOutput (attempts i) ∧ (attempts i).exitCode ≠ 0) := by
  unfold RunSimctlCommand runSimctlFrom
  by_cases h0 : (attempts 0).exitCode ≠ 0
  · by_cases hsig :
        strIn CORESIMULATOR_INTERRUPTED_ERROR (simctlOutput (attempts 0)) = true
    · simp only [h0, hsig, if_true, if_pos, and_true, ne_eq,
        OfNat.ofNat_ne_zero, not_false_iff, true_and]
      unfold runSimctlFrom
      by_cases h1 : (attempts 1).exitCode ≠ 0
      · simp [h0, h1, hsig]
        exact ⟨1, by omega, rfl, h1⟩
      · simp [h0, h1, hsig]
    · simp [h0, hsig]
      exact ⟨0, by omega, rfl, h0⟩
  · simp [h0]

/-! ### The line loop of `Execute` -/

/-- Once the test has started, later lines only accumulate the succeeded /
failed signals. -/
theorem scanLines_of_started (ss fs : Option String) :
    ∀ (lines : List String) (st : ScanState), st.started = true →
      scanLines ss fs st lines
        = ⟨true, st.succeeded || lines.any (optSigIn ss),
            st.failed || lines.any (optSigIn fs)⟩ := by
  intro lines
  induction lines with
  | nil =>
    intro st hst
    cases st
    simp_all [scanLines]
  | cons l rest ih =>
    intro st hst
    have hline : scanLine ss fs st l
        = ⟨true, st.succeeded || optSigIn ss l, st.failed || optSigIn fs l⟩ := by
      cases st
      simp_all [scanLine]
    show scanLines ss fs (scanLine ss fs st l) rest = _
    rw [hline, ih _ rfl]
    simp [Bool.or_assoc]

/-- The line loop from the initial state: the final `test_started` flag is
"some line contains `Test Suite`", and each result signal is seen exactly
when it occurs in a line strictly after the first `Test Suite` line. -/
theorem scanLines_initScan (ss fs : Option String) :
    ∀ lines : List String,
      scanLines ss fs initScan lines
        = if startedIn lines = true then
            ⟨true, sigAfterStart ss lines, sigAfterStart fs lines⟩
          else initScan := by
  intro lines
  induction lines with
  | nil => simp [scanLines, startedIn]
  | cons l rest ih =>
    by_cases hl : strIn TEST_STARTED_SIGNAL l = true
    · have h1 : scanLine ss fs initScan l = ⟨true, false, false⟩ := by
        simp [scanLine, initScan, hl]
      have hs : startedIn (l :: rest) = true := by simp [startedIn, hl]
      show scanLines ss fs (scanLine ss fs initScan l) rest = _
      rw [h1, scanLines_of_started ss fs rest ⟨true, false, false⟩ rfl,
        if_pos hs]
      simp [sigAfterStart, firstStartIdx, List.findIdx_cons, hl]
    · have hl' : strIn TEST_STARTED_SIGNAL l = false := by simpa using hl
      have h1 : scanLine ss fs initScan l = initScan := by
        simp [scanLine, initScan, hl']
      have hs : startedIn (l :: rest) = startedIn rest := by
        simp [startedIn, hl']
      show scanLines ss fs (scanLine ss fs initScan l) rest = _
      rw [h1, ih, hs]
      by_cases h2 : startedIn rest = true
      · rw [if_pos h2, if_pos h2]
        simp [sigAfterStart, firstStartIdx, List.findIdx_cons, hl']
      · rw [if_neg h2, if_neg h2]

/-- An attempt whose lines never announce the test leaves the scanning
state at its initial value, so every attempt the retry loop reaches starts
scanning from `initScan`. -/
theorem scanLines_initScan_not_started (ss fs : Option String)
    (lines : List String) (h : startedIn lines = false) :
    scanLines ss fs initScan lines = initScan := by
  rw [scanLines_initScan, if_neg (by simp [h])]

/-- C2.  For a supervisor attempt (reached with the scanning state still
initial, which `scanLines_initScan_not_started` shows holds for every
reached attempt) whose output contains the test-started signal `Test Suite`
in some line, `Execute` returns on that attempt: `SUCCEEDED` when the
succeeded signal occurs in a line after the first `Test Suite` line,
otherwise `FAILED` when the failed signal so occurs, otherwise `ERROR`;
the succeeded signal wins when both occur because it is decided first. -/
theorem C2_theorem (cfg : ExecuteConfig) (envs : ℕ → AttemptEnv)
    (i fuel : ℕ) (hstart : startedIn (envs i).lines = true) :
    executeFrom cfg envs initScan i (fuel + 1)
      = some (if sigAfterStart cfg.succeededSignal (envs i).lines
              then EXITCODE.SUCCEEDED
              else if sigAfterStart cfg.failedSignal (envs i).lines
              then EXITCODE.FAILED
              else EXITCODE.ERROR) := by
  have hch := scanLines_initScan cfg.succeededSignal cfg.failedSignal
    (envs i).lines
  rw [if_pos hstart] at hch
  simp only [executeFrom, hch]
  simp

/-- Witness for `C2_theorem`: a run whose output starts the test and then
shows both the succeeded and the failed signal is classified `SUCCEEDED`. -/
theorem C2_witness :
    startedIn ["Test Suite All started\n", "ok bad\n"] = true ∧
    executeFrom
        ⟨some SDK.iphonesimulator, some TestType.xctest, some "S", some "ok",
          some "bad", none⟩
        (fun _ => ⟨["Test Suite All started\n", "ok bad\n"], false, false,
          false, false, false, true⟩)
        initScan 0 (2 + 1)
      = some EXITCODE.SUCCEEDED := by
  refine ⟨by decide, ?_⟩
  have h := C2_theorem
    ⟨some SDK.iphonesimulator, some TestType.xctest, some "S", some "ok",
      some "bad", none⟩
    (fun _ => ⟨["Test Suite All started\n", "ok bad\n"], false, false, false,
      false, false, true⟩)
    0 2 (by decide)
  rw [h]
  decide

/-- C3, counterexample.  The claim says the startup-watchdog rule is the
last rule evaluated, so a failed-to-start simulator run whose output
matches `Application ".*" is unknown to FrontBoard.` is classified
`NeedRecreateSimulator` (14) even when the watchdog also fired.  In the
code the watchdog check comes first: with the FrontBoard line in the
output and the watchdog fired, `Execute` returns `TEST_NOT_START` (12),
not 14. -/
theorem C3_counterexample :
    appUnknownToFrontBoard
        (outputOf ["Application \"com.example.app\" is unknown to FrontBoard.\n"])
      = true ∧
    Execute ⟨some SDK.iphonesimulator, none, some "S", none, none, none⟩
        (fun _ =>
          ⟨["Application \"com.example.app\" is unknown to FrontBoard.\n"],
            true, false, false, false, false, true⟩)
      = some EXITCODE.TEST_NOT_START ∧
    EXITCODE.TEST_NOT_START ≠ EXITCODE.NEED_RECREATE_SIM := by
  refine ⟨by decide, by decide, by decide⟩

/-- C3, amended.  The startup-watchdog check is evaluated first, not last:
when the watchdog fired, the run is classified `TEST_NOT_START` whatever
the output holds (see `C3_counterexample`).  When the watchdog did not
fire, the simulator-path rules are evaluated in their listed order, and an
output matching `Application ".*" is unknown to FrontBoard.` yields
`NEED_RECREATE_SIM` provided the earlier reboot rule did not fire. -/
theorem C3_theorem (cfg : ExecuteConfig) (envs : ℕ → AttemptEnv)
    (i fuel : ℕ)
    (hsdk : cfg.sdk = some SDK.iphonesimulator)
    (hns : startedIn (envs i).lines = false)
    (hstuck : (envs i).stuck = false)
    (hreboot : needRebootSim cfg (outputOf (envs i).lines) = false)
    (hfront : appUnknownToFrontBoard (outputOf (envs i).lines) = true) :
    executeFrom cfg envs initScan i (fuel + 1)
      = some EXITCODE.NEED_RECREATE_SIM := by
  have hch := scanLines_initScan_not_started cfg.succeededSignal
    cfg.failedSignal (envs i).lines hns
  have hrec : needRecreateSim (outputOf (envs i).lines) = true := by
    simp [needRecreateSim, hfront]
  simp only [executeFrom, hch, hsdk]
  simp [initScan, hstuck, hreboot, hrec]

/-- Witness for `C3_theorem`: with the watchdog quiet, the FrontBoard
output is classified `NEED_RECREATE_SIM`. -/
theorem C3_witness :
    (⟨some SDK.iphonesimulator, none, some "S", none, none, none⟩ :
        ExecuteConfig).sdk = some SDK.iphonesimulator ∧
    executeFrom ⟨some SDK.iphonesimulator, none, some "S", none, none, none⟩
        (fun _ =>
          ⟨["Application \"com.example.app\" is unknown to FrontBoard.\n"],
            false, false, false, false, false, true⟩)
        initScan 0 (2 + 1)
      = some EXITCODE.NEED_RECREATE_SIM := by
  refine ⟨rfl, ?_⟩
  exact C3_theorem _ _ 0 2 rfl (by decide) (by decide) (by decide) (by decide)

/-! ### Totality and range of `Execute` -/

/-- One-step unfolding of the attempt loop. -/
theorem executeFrom_succ (cfg : ExecuteConfig) (envs : ℕ → AttemptEnv)
    (st : ScanState) (i fuel : ℕ) :
    executeFrom cfg envs st i (fuel + 1)
      = (let env := envs i
         let st1 := scanLines cfg.succeededSignal cfg.failedSignal st env.lines
         if st1.started then
           some (if st1.succeeded then EXITCODE.SUCCEEDED
                 else if st1.failed then EXITCODE.FAILED
                 else EXITCODE.ERROR)
         else if env.stuck then some (resultForXcodebuildStuck cfg)
         else
           let out := outputOf env.lines
           if cfg.sdk = some SDK.iphoneos then
             if deviceRelaunchError out = true ∧ fuel ≠ 0 then
               executeFrom cfg envs st1 (i + 1) fuel
             else if strIn TOO_MANY_INSTANCES_ALREADY_RUNNING out then
               some EXITCODE.NEED_REBOOT_DEVICE
             else some EXITCODE.TEST_NOT_START
           else if cfg.sdk = some SDK.iphonesimulator then
             if needRebootSim cfg out then some EXITCODE.NEED_REBOOT_DEVICE
             else if needRecreateSim out then some EXITCODE.NEED_RECREATE_SIM
             else if simRelaunchError cfg (envs i) out = true ∧ fuel ≠ 0 then
               executeFrom cfg envs st1 (i + 1) fuel
             else some EXITCODE.TEST_NOT_START
           else some EXITCODE.TEST_NOT_START) := rfl

/-- Every iteration of the attempt loop returns an exit code of the closed
taxonomy (the loop never falls through while fuel remains: every `continue`
is guarded by `i < max_attempts - 1`). -/
theorem executeFrom_returns (cfg : ExecuteConfig) (envs : ℕ → AttemptEnv) :
    ∀ (fuel : ℕ) (st : ScanState) (i : ℕ),
      ∃ c, executeFrom cfg envs st i (fuel + 1) = some c ∧
        c ∈ exitCodeTaxonomy := by
  have hstuckmem : resultForXcodebuildStuck cfg ∈ exitCodeTaxonomy := by
    unfold resultForXcodebuildStuck
    split <;> decide
  intro fuel
  induction fuel with
  | zero =>
    intro st i
    rw [executeFrom_succ]
    simp only []
    split_ifs <;>
      first
      | exact ⟨_, rfl, by decide⟩
      | exact ⟨_, rfl, hstuckmem⟩
      | (exfalso; simp_all)
  | succ n ih =>
    intro st i
    rw [executeFrom_succ]
    simp only []
    split_ifs <;>
      first
      | exact ih _ _
      | exact ⟨_, rfl, by decide⟩
      | exact ⟨_, rfl, hstuckmem⟩

/-- C1.  Every terminating `Execute` returns an exit code, and that code
is a member of the closed `EXITCODE` taxonomy
{0, 1, 10, 11, 12, 13, 14, 15} with its fixed meanings (`SUCCEEDED` = 0,
`ERROR` = 1, `UNKNOWN` = 10, `FAILED` = 11, `TEST_NOT_START` = 12,
`NEED_REBOOT_DEVICE` = 13, `NEED_RECREATE_SIM` = 14, `SIM_ERROR` = 15);
no other integer is ever returned. -/
theorem C1_theorem (cfg : ExecuteConfig) (envs : ℕ → AttemptEnv) :
    (∃ c, Execute cfg envs = some c ∧ c ∈ exitCodeTaxonomy) ∧
    exitCodeTaxonomy = ({0, 1, 10, 11, 12, 13, 14, 15} : Finset ℕ) := by
  constructor
  · have hshape : ∃ n, maxAttempts cfg.sdk = n + 1 := by
      rcases cfg.sdk with _ | sdk
      · exact ⟨0, rfl⟩
      · cases sdk
        · exact ⟨1, rfl⟩
        · exact ⟨2, rfl⟩
    obtain ⟨n, hn⟩ := hshape
    unfold Execute
    rw [hn]
    exact executeFrom_returns cfg envs n initScan 0
  · decide

/-! ### The `Simulator` object: `Delete` and `GetSimulatorState` -/

/-- C4, counterexample.  The claim says `GetSimulatorState` after `Delete`
always yields an error.  But the object caches its root-directory path: a
`GetSimulatorState` call made before `Delete` (here on a simulator whose
metadata file does not exist, reporting `Creating`) stores the path, and
after `Delete` the cached path lets `GetSimulatorState` run without ever
touching the invalidated identity — it returns the state `Creating`
instead of an error.  (The log directory is removed, as the claim says.) -/
theorem C4_counterexample :
    GetSimulatorState "H" ⟨[simLogPath "H" "SIM"], fun _ => none⟩
        (mkSimulator "SIM")
      = Except.ok (SimState.creating,
          ⟨some "SIM", some (simRootPath "H" "SIM"), none, none⟩) ∧
    deleteSimulator "H" ⟨[simLogPath "H" "SIM"], fun _ => none⟩
        ⟨some "SIM", some (simRootPath "H" "SIM"), none, none⟩ true true
      = Except.ok
          (⟨none, some (simRootPath "H" "SIM"), some (simLogPath "H" "SIM"),
              none⟩,
            ⟨[], fun _ => none⟩) ∧
    GetSimulatorState "H" ⟨[], fun _ => none⟩
        ⟨none, some (simRootPath "H" "SIM"), some (simLogPath "H" "SIM"),
          none⟩
      = Except.ok (SimState.creating,
          ⟨none, some (simRootPath "H" "SIM"), some (simLogPath "H" "SIM"),
            none⟩) :=
  ⟨rfl, rfl, rfl⟩

/-- C4, amended.  After a `Delete` that returns, the simulator's on-disk
log directory is absent and the identity is invalidated; a subsequent
`GetSimulatorState` on the same object yields the invalidated-identity
error provided the object had not already cached its root-directory path
or plist handle — with such a cache it can instead report a state
(`C4_counterexample`). -/
theorem C4_theorem (home : String) (fs : SimFs) (o : SimulatorObj)
    (id : String) (asyncFlag okFlag : Bool) (o' : SimulatorObj) (fs' : SimFs)
    (hid : o.simulatorId = some id)
    (hlog : o.cachedLogRootDir = none ∨
      o.cachedLogRootDir = some (simLogPath home id))
    (hdel : deleteSimulator home fs o asyncFlag okFlag
      = Except.ok (o', fs')) :
    simLogPath home id ∉ fs'.dirs ∧
    o'.simulatorId = none ∧
    (o.cachedRootDir = none → o.cachedPlistPath = none →
      GetSimulatorState home fs' o'
        = Except.error (SimErr.simError
            "The simulator has not been created or has been deleted.")) := by
  unfold deleteSimulator at hdel
  rw [show simulatorIdProp o = Except.ok id by simp [simulatorIdProp, hid]]
    at hdel
  by_cases hcond : (asyncFlag = true ∨ okFlag = true)
  · rw [if_pos hcond] at hdel
    have hlr : simulatorLogRootDir home o
        = Except.ok (simLogPath home id,
            { o with cachedLogRootDir := some (simLogPath home id) }) := by
      rcases hlog with h | h
      · simp [simulatorLogRootDir, h, simulatorIdProp, hid]
      · simp [simulatorLogRootDir, h]
        cases o
        simp_all
    rw [hlr] at hdel
    obtain ⟨ho', hfs'⟩ := by
      have := Except.ok.inj hdel
      exact Prod.mk.injEq .. ▸ this
    refine ⟨?_, ?_, ?_⟩
    · rw [← hfs']
      simp [rmtree]
    · rw [← ho']
    · intro hroot hplist
      rw [← ho']
      unfold GetSimulatorState devicePlistObject simulatorRootDir
        simulatorIdProp
      simp [hplist, hroot]
  · rw [if_neg hcond] at hdel
    exact absurd hdel (by simp)

/-- Witness for `C4_theorem` on a freshly constructed object (no caches):
the delete succeeds, the log directory is gone and the state query fails
with the invalidated-identity error. -/
theorem C4_witness :
    ((mkSimulator "S").simulatorId = some "S") ∧
    (simLogPath "H" "S" ∉
      (SimFs.mk [] (fun _ => none)).dirs) ∧
    ((SimulatorObj.mk none none (some (simLogPath "H" "S")) none).simulatorId
      = none) ∧
    GetSimulatorState "H" ⟨[], fun _ => none⟩
        ⟨none, none, some (simLogPath "H" "S"), none⟩
      = Except.error (SimErr.simError
          "The simulator has not been created or has been deleted.") := by
  have h := C4_theorem "H" ⟨[simLogPath "H" "S"], fun _ => none⟩
    (mkSimulator "S") "S" true true
    ⟨none, none, some (simLogPath "H" "S"), none⟩ ⟨[], fun _ => none⟩
    rfl (Or.inl rfl) rfl
  exact ⟨rfl, h.1, h.2.1, h.2.2 rfl rfl⟩

/-- Witness for `C5_theorem`: a first execution failing with the transient
interruption signature leads to exactly two executions, and a plain
failure raises an error carrying that execution's computed output. -/
theorem C5_witness :
    (RunSimctlCommand (fun i =>
        if i = 0 then ⟨1, "CoreSimulatorService connection interrupted", ""⟩
        else ⟨0, "done", ""⟩)).1 = 2 ∧
    ((fun i : ℕ =>
        if i = 0 then
          (⟨1, "CoreSimulatorService connection interrupted", ""⟩ :
            SimctlAttempt)
        else ⟨0, "done", ""⟩) 0).exitCode ≠ 0 ∧
    (∃ i < 2, ("bad" : String)
        = simctlOutput ((fun _ : ℕ => (⟨1, "bad", ""⟩ : SimctlAttempt)) i) ∧
      ((fun _ : ℕ => (⟨1, "bad", ""⟩ : SimctlAttempt)) i).exitCode ≠ 0) := by
  refine ⟨by rfl, ?_, ?_⟩
  · exact ((C5_theorem (fun i =>
      if i = 0 then ⟨1, "CoreSimulatorService connection interrupted", ""⟩
      else ⟨0, "done", ""⟩)).2.1 (by rfl)).1
  · exact (C5_theorem (fun _ => ⟨1, "bad", ""⟩)).2.2 "bad" (by rfl)

/-! ### `XctestSession` directory cleanup -/

theorem closeDir_subset {x : String} {d : Option String} {del : Bool}
    {fs : List String} (h : x ∈ closeDir d del fs) : x ∈ fs := by
  rcases d with _ | dd
  · simpa [closeDir] using h
  · simp only [closeDir] at h
    by_cases hc : del = true ∧ dd ≠ "" ∧ dd ∈ fs
    · rw [if_pos hc] at h
      simp [rmtree] at h
      exact h.1
    · rwa [if_neg hc] at h

theorem closeDir_idem (d : Option String) (del : Bool) (fs : List String) :
    closeDir d del (closeDir d del fs) = closeDir d del fs := by
  rcases d with _ | dd
  · simp [closeDir]
  · simp only [closeDir]
    by_cases hc : del = true ∧ dd ≠ "" ∧ dd ∈ fs
    · rw [if_pos hc, if_neg ?_]
      intro h
      have : dd ∉ rmtree fs dd := by simp [rmtree]
      exact this h.2.2
    · rw [if_neg hc, if_neg hc]

theorem closeDir_twice_outer (w oDir : Option String) (dw dOut : Bool)
    (fs : List String) :
    closeDir w dw (closeDir oDir dOut (closeDir w dw fs))
      = closeDir oDir dOut (closeDir w dw fs) := by
  rcases w with _ | dd
  · simp [closeDir]
  · simp only [closeDir]
    by_cases hc : dw = true ∧ dd ≠ "" ∧ dd ∈ fs
    · rw [if_pos hc, if_neg ?_]
      intro h
      have hnr : dd ∉ rmtree fs dd := by simp [rmtree]
      exact hnr (closeDir_subset h.2.2)
    · rw [if_neg hc]
      by_cases h2 : dw = true ∧ dd ≠ ""
      · have hnm : dd ∉ fs := fun hm => hc ⟨h2.1, h2.2, hm⟩
        rw [if_neg ?_]
        intro h
        exact hnm (closeDir_subset h.2.2)
      · rw [if_neg ?_]
        intro h
        exact h2 ⟨h.1, h.2.1⟩

theorem closeDir_of_absent (d : Option String) (del : Bool)
    (fs : List String) (h : ∀ x, d = some x → x ∉ fs) :
    closeDir d del fs = fs := by
  rcases d with _ | dd
  · simp [closeDir]
  · simp only [closeDir]
    rw [if_neg ?_]
    intro hcond
    exact h dd rfl hcond.2.2

/-- C9, counterexample.  The claim says a caller-supplied directory is
never removed by `Close`.  But `__init__` records the caller's directory
with the delete flag still `True`; the flag is only cleared by `Prepare`.
If `Close` runs before `Prepare` (the context manager closes the session
when an exception fires before `Prepare`'s body, e.g. in the parsing of
the options file passed as its argument), the caller-supplied directory
is removed. -/
theorem C9_counterexample :
    closeSession (initSession (some "w") none) ["w"] = [] ∧
    "w" ∉ closeSession (initSession (some "w") none) ["w"] :=
  ⟨by decide, by decide⟩

/-- C9, amended.  `Close` is idempotent — a second call has the same
filesystem effect — and never fails when the directories are already
absent (removal is guarded by an existence check; closing with both
directories absent is the identity).  A caller-supplied directory is never
removed by `Close` once `Prepare` has recorded the pin (cleared the delete
flag); a `Close` that runs before `Prepare` may remove it
(`C9_counterexample`). -/
theorem C9_theorem :
    (∀ (s : SessionDirs) (fs : List String),
      closeSession s (closeSession s fs) = closeSession s fs) ∧
    (∀ (s : SessionDirs) (fs : List String),
      (∀ w, s.workDir = some w → w ∉ fs) →
      (∀ o, s.outputDir = some o → o ∉ fs) →
      closeSession s fs = fs) ∧
    (∀ (w o tmpW tmpO : String) (fs fs2 : List String), w ≠ "" → o ≠ "" →
      closeSession
          (prepareDirs (initSession (some w) (some o)) fs tmpW tmpO).1 fs2
        = fs2) := by
  refine ⟨?_, ?_, ?_⟩
  · intro s fs
    unfold closeSession
    exact (closeDir_twice_outer s.outputDir s.workDir s.deleteOutputDir
        s.deleteWorkDir (closeDir s.workDir s.deleteWorkDir fs)).trans
      (closeDir_twice_outer s.workDir s.outputDir s.deleteWorkDir
        s.deleteOutputDir fs)
  · intro s fs hw ho
    unfold closeSession
    rw [closeDir_of_absent s.workDir _ _ hw, closeDir_of_absent _ _ _ ho]
  · intro w o tmpW tmpO fs fs2 hw ho
    simp [initSession, prepareDirs, prepareDir, hw, ho, closeSession,
      closeDir]

/-- Witness for `C9_theorem` at concrete sessions and directories. -/
theorem C9_witness :
    closeSession ⟨some "a", true, none, true⟩ [] = [] ∧
    closeSession
        (prepareDirs (initSession (some "w") (some "o")) [] "tw" "to").1
        ["w", "o", "x"]
      = ["w", "o", "x"] := by
  constructor
  · exact C9_theorem.2.1 ⟨some "a", true, none, true⟩ []
      (fun w hw => by cases hw; simp) (fun o ho => by cases ho)
  · exact C9_theorem.2.2 "w" "o" "tw" "to" [] ["w", "o", "x"]
      (by decide) (by decide)

/-! ### `RunLogicTestOnSim` -/

/-- C10.  `RunLogicTestOnSim` spawns the test child exactly once and
returns `SUCCEEDED` (0) exactly when the child's exit status is 0 and
`FAILED` (11) for every non-zero status; no other exit code is possible on
this path (there is no retry, watchdog or failure classification). -/
theorem C10_theorem (inp : LogicTestInputs) :
    (runLogicTestOnSim inp).1.length = 1 ∧
    ((runLogicTestOnSim inp).2 = EXITCODE.SUCCEEDED ↔
      inp.childReturnCode = 0) ∧
    (inp.childReturnCode ≠ 0 →
      (runLogicTestOnSim inp).2 = EXITCODE.FAILED) ∧
    ((runLogicTestOnSim inp).2 = EXITCODE.SUCCEEDED ∨
      (runLogicTestOnSim inp).2 = EXITCODE.FAILED) := by
  unfold runLogicTestOnSim
  by_cases h : inp.childReturnCode = 0 <;>
    simp [h, EXITCODE.SUCCEEDED, EXITCODE.FAILED]

/-- Witness for `C10_theorem` at a child exiting 1. -/
theorem C10_witness :
    (runLogicTestOnSim
        ⟨"S", "tb", [], [], [], none, 900, "sw", none, [], "/P", "xt", 1⟩).2
      = EXITCODE.FAILED :=
  ( C10_theorem
    ⟨"S", "tb", [], [], [], none, 900, "sw", none, [], "/P", "xt", 1⟩).2.2.1
    (by decide)

/-! ### The logic-test child environment -/

theorem str_data_inj {s t : String} (h : s.data = t.data) : s = t := by
  cases s
  cases t
  exact congrArg String.mk h

theorem simctl_prefixed_inj {a b : String}
    (h : SIMCTL_ENV_VAR_PREFIX ++ a = SIMCTL_ENV_VAR_PREFIX ++ b) : a = b := by
  have hd := congrArg String.data h
  rw [String.data_append, String.data_append] at hd
  exact str_data_inj (List.append_cancel_left hd)

theorem simctl_prefixed_ne_NSUnbufferedIO (a : String) :
    SIMCTL_ENV_VAR_PREFIX ++ a ≠ "NSUnbufferedIO" := by
  intro h
  have hd : 'S' :: ("IMCTL_CHILD_".data ++ a.data)
      = 'N' :: "SUnbufferedIO".data := by
    have := congrArg String.data h
    rw [String.data_append] at this
    exact this
  injection hd with h1 _
  exact absurd h1 (by decide)

theorem simctl_prefixed_ne_DEVELOPER_DIR (a : String) :
    SIMCTL_ENV_VAR_PREFIX ++ a ≠ "DEVELOPER_DIR" := by
  intro h
  have hd : 'S' :: ("IMCTL_CHILD_".data ++ a.data)
      = 'D' :: "EVELOPER_DIR".data := by
    have := congrArg String.data h
    rw [String.data_append] at this
    exact this
  injection hd with h1 _
  exact absurd h1 (by decide)

/-- Looking a prefixed key up in the prefixed-insertion fold is looking the
bare key up in the dict of the list. -/
theorem prefEnvLookup (l : List (String × String)) :
    ∀ (e : String → Option String) (K : String),
      (l.foldl (fun e kv => updEnv e (SIMCTL_ENV_VAR_PREFIX ++ kv.1) kv.2) e)
          (SIMCTL_ENV_VAR_PREFIX ++ K)
        = match dictOf l K with
          | some v => some v
          | none => e (SIMCTL_ENV_VAR_PREFIX ++ K) := by
  induction l using List.reverseRecOn with
  | nil => intro e K; simp [dictOf, emptyEnv]
  | append_singleton l kv ih =>
    intro e K
    have hdict : dictOf (l ++ [kv]) K
        = if K = kv.1 then some kv.2 else dictOf l K := by
      simp [dictOf, List.foldl_append, updEnv]
    rw [List.foldl_append, hdict]
    simp only [List.foldl_cons, List.foldl_nil]
    by_cases hk : K = kv.1
    · subst hk
      simp [updEnv]
    · rw [show updEnv
          (l.foldl (fun e kv => updEnv e (SIMCTL_ENV_VAR_PREFIX ++ kv.1) kv.2) e)
          (SIMCTL_ENV_VAR_PREFIX ++ kv.1) kv.2 (SIMCTL_ENV_VAR_PREFIX ++ K)
          = (l.foldl (fun e kv => updEnv e (SIMCTL_ENV_VAR_PREFIX ++ kv.1) kv.2) e)
            (SIMCTL_ENV_VAR_PREFIX ++ K) from
        if_neg (fun hh => hk (simctl_prefixed_inj hh))]
      rw [ih e K]
      simp [hk]

/-- Any prefixed key other than the two DYLD fallback keys reads through
all the later environment updates of `RunLogicTestOnSim` down to the
prefixed insertion of `env_vars`. -/
theorem logicTestEnv_prefixed (inp : LogicTestInputs) (K : String)
    (h1 : K ≠ "DYLD_FALLBACK_LIBRARY_PATH")
    (h2 : K ≠ "DYLD_FALLBACK_FRAMEWORK_PATH") :
    logicTestEnv inp (SIMCTL_ENV_VAR_PREFIX ++ K)
      = (inp.envVars.foldl
          (fun e kv => updEnv e (SIMCTL_ENV_VAR_PREFIX ++ kv.1) kv.2)
          emptyEnv)
        (SIMCTL_ENV_VAR_PREFIX ++ K) := by
  have n1 : SIMCTL_ENV_VAR_PREFIX ++ K
      ≠ SIMCTL_ENV_VAR_PREFIX ++ "DYLD_FALLBACK_LIBRARY_PATH" :=
    fun h => h1 (simctl_prefixed_inj h)
  have n2 : SIMCTL_ENV_VAR_PREFIX ++ K
      ≠ SIMCTL_ENV_VAR_PREFIX ++ "DYLD_FALLBACK_FRAMEWORK_PATH" :=
    fun h => h2 (simctl_prefixed_inj h)
  have n3 := simctl_prefixed_ne_NSUnbufferedIO K
  have n4 := simctl_prefixed_ne_DEVELOPER_DIR K
  rcases hosv : inp.osVersionNumber with _ | ov <;>
    rcases hdev : inp.developerDir with _ | d <;>
    simp only [logicTestEnv, hosv, hdev] <;>
    split_ifs <;>
    simp [updEnv, n1, n2, n3, n4]

/-- The child environment always binds `NSUnbufferedIO` to `YES`. -/
theorem logicTestEnv_NSUnbufferedIO (inp : LogicTestInputs) :
    logicTestEnv inp "NSUnbufferedIO" = some "YES" := by
  have n1 : ("NSUnbufferedIO" : String)
      ≠ SIMCTL_ENV_VAR_PREFIX ++ "DYLD_FALLBACK_LIBRARY_PATH" := by decide
  have n2 : ("NSUnbufferedIO" : String)
      ≠ SIMCTL_ENV_VAR_PREFIX ++ "DYLD_FALLBACK_FRAMEWORK_PATH" := by decide
  have n3 : ("NSUnbufferedIO" : String) ≠ "DEVELOPER_DIR" := by decide
  rcases hosv : inp.osVersionNumber with _ | ov <;>
    rcases hdev : inp.developerDir with _ | d <;>
    simp only [logicTestEnv, hosv, hdev] <;>
    split_ifs <;>
    simp [updEnv, n1, n2, n3]

/-- C6, counterexample.  The claim says every key `K` of `env_vars` appears
as `SIMCTL_CHILD_K` with the same value.  For
`K = DYLD_FALLBACK_LIBRARY_PATH` and an x86_64 test binary, the spawner
overwrites `SIMCTL_CHILD_DYLD_FALLBACK_LIBRARY_PATH` with the simulator
platform's library directory, discarding the supplied value. -/
theorem C6_counterexample :
    dictOf [("DYLD_FALLBACK_LIBRARY_PATH", "/custom")]
        "DYLD_FALLBACK_LIBRARY_PATH" = some "/custom" ∧
    logicTestEnv
        ⟨"S", "tb", [("DYLD_FALLBACK_LIBRARY_PATH", "/custom")], [], [],
          none, 900, "sw", none, ["x86_64"], "/P", "xt", 0⟩
        (SIMCTL_ENV_VAR_PREFIX ++ "DYLD_FALLBACK_LIBRARY_PATH")
      = some "/P/Developer/usr/lib" ∧
    some ("/P/Developer/usr/lib" : String) ≠ some "/custom" :=
  ⟨rfl, rfl, by decide⟩

/-- C6, amended.  For every key `K` of `env_vars` other than
`DYLD_FALLBACK_LIBRARY_PATH` and `DYLD_FALLBACK_FRAMEWORK_PATH` (whose
prefixed copies may be overwritten by the swift-5.0 fallback rule or the
x86_64 rework rule), the child's environment binds `SIMCTL_CHILD_K` to
`env_vars[K]`; and it always binds `NSUnbufferedIO` to `YES`. -/
theorem C6_theorem (inp : LogicTestInputs) (K v : String)
    (hv : dictOf inp.envVars K = some v)
    (h1 : K ≠ "DYLD_FALLBACK_LIBRARY_PATH")
    (h2 : K ≠ "DYLD_FALLBACK_FRAMEWORK_PATH") :
    logicTestEnv inp (SIMCTL_ENV_VAR_PREFIX ++ K) = some v ∧
    logicTestEnv inp "NSUnbufferedIO" = some "YES" := by
  refine ⟨?_, logicTestEnv_NSUnbufferedIO inp⟩
  rw [logicTestEnv_prefixed inp K h1 h2, prefEnvLookup inp.envVars emptyEnv K,
    hv]

/-- Witness for `C6_theorem` at a concrete overlay. -/
theorem C6_witness :
    dictOf [("FOO", "1")] "FOO" = some "1" ∧
    logicTestEnv
        ⟨"S", "tb", [("FOO", "1")], [], [], some 1000, 1200, "sw",
          some "/dd", ["x86_64"], "/P", "xt", 0⟩
        (SIMCTL_ENV_VAR_PREFIX ++ "FOO") = some "1" ∧
    logicTestEnv
        ⟨"S", "tb", [("FOO", "1")], [], [], some 1000, 1200, "sw",
          some "/dd", ["x86_64"], "/P", "xt", 0⟩
        "NSUnbufferedIO" = some "YES" := by
  have h := C6_theorem
    ⟨"S", "tb", [("FOO", "1")], [], [], some 1000, 1200, "sw", some "/dd",
      ["x86_64"], "/P", "xt", 0⟩
    "FOO" "1" (by rfl) (by decide) (by decide)
  exact ⟨by rfl, h.1, h.2⟩

/-! ### The simulator retry planner -/

theorem countRunTests_append (a b : List SimAction) :
    countRunTests (a ++ b) = countRunTests a + countRunTests b := by
  simp [countRunTests, List.countP_append]

theorem countRunTests_le (xv : ℕ) (envs : ℕ → PlannerEnv) :
    ∀ (fuel i : ℕ) (rb : Bool) (simId : String),
      countRunTests (runSimulatorTestFrom xv envs i rb simId fuel).1 ≤ fuel := by
  intro fuel
  induction fuel with
  | zero =>
    intro i rb s
    simp [runSimulatorTestFrom, countRunTests]
  | succ n ih =>
    intro i rb s
    have h1 := ih (i + 1) false (if rb then s else (envs i).newSimId)
    have h2 := ih (i + 1) true (if rb then s else (envs i).newSimId)
    simp only [countRunTests] at h1 h2 ⊢
    simp only [runSimulatorTestFrom]
    split_ifs with hA hB <;> cases rb <;>
      simp [List.countP_append, List.countP_cons, plannerTeardown] <;>
      split_ifs <;> simp_all

theorem runSimFrom_succ (xv : ℕ) (envs : ℕ → PlannerEnv) (i : ℕ) (rb : Bool)
    (simId : String) (fuel : ℕ) :
    runSimulatorTestFrom xv envs i rb simId (fuel + 1)
      = (let env := envs i
         let simId1 := if rb then simId else env.newSimId
         let acts0 :=
           (if rb then [] else [SimAction.create env.newSimId])
             ++ [SimAction.runTest simId1]
         if fuel ≠ 0 ∧ env.exitCode = EXITCODE.NEED_RECREATE_SIM then
           let r := runSimulatorTestFrom xv envs (i + 1) false simId1 fuel
           (acts0 ++ plannerTeardown xv false simId1 ++ r.1, r.2)
         else if fuel ≠ 0 ∧ env.exitCode = EXITCODE.NEED_REBOOT_DEVICE then
           let r := runSimulatorTestFrom xv envs (i + 1) true simId1 fuel
           (acts0 ++ plannerTeardown xv true simId1 ++ r.1, r.2)
         else
           (acts0 ++ plannerTeardown xv false simId1, env.exitCode)) := rfl

theorem runFrom_head (xv : ℕ) (envs : ℕ → PlannerEnv) (i : ℕ) (rb : Bool)
    (simId : String) (fuel : ℕ) :
    ∃ t, (runSimulatorTestFrom xv envs i rb simId (fuel + 1)).1
      = (if rb then [] else [SimAction.create (envs i).newSimId])
        ++ SimAction.runTest (if rb then simId else (envs i).newSimId)
          :: t := by
  rw [runSimFrom_succ]
  simp only []
  by_cases hA : fuel ≠ 0 ∧ (envs i).exitCode = EXITCODE.NEED_RECREATE_SIM
  · rw [if_pos hA]
    exact ⟨plannerTeardown xv false (if rb then simId else (envs i).newSimId)
      ++ (runSimulatorTestFrom xv envs (i + 1) false
          (if rb then simId else (envs i).newSimId) fuel).1, by simp⟩
  · rw [if_neg hA]
    by_cases hB : fuel ≠ 0 ∧ (envs i).exitCode = EXITCODE.NEED_REBOOT_DEVICE
    · rw [if_pos hB]
      exact ⟨plannerTeardown xv true (if rb then simId else (envs i).newSimId)
        ++ (runSimulatorTestFrom xv envs (i + 1) true
            (if rb then simId else (envs i).newSimId) fuel).1, by simp⟩
    · rw [if_neg hB]
      exact ⟨plannerTeardown xv false
        (if rb then simId else (envs i).newSimId), by simp⟩

theorem reboot_prefix (xv : ℕ) (envs : ℕ → PlannerEnv) (i fuel : ℕ)
    (rb : Bool) (simId : String)
    (hex : (envs i).exitCode = EXITCODE.NEED_REBOOT_DEVICE) :
    ∃ rest, (runSimulatorTestFrom xv envs i rb simId (fuel + 1 + 1)).1
      = (if rb then [] else [SimAction.create (envs i).newSimId])
        ++ SimAction.runTest (if rb then simId else (envs i).newSimId)
          :: ((if xv < 900 then [SimAction.quitSimApp] else [])
            ++ SimAction.shutdown (if rb then simId else (envs i).newSimId)
              :: SimAction.runTest (if rb then simId else (envs i).newSimId)
              :: rest) := by
  obtain ⟨t, ht⟩ := runFrom_head xv envs (i + 1) true
    (if rb then simId else (envs i).newSimId) fuel
  rw [runSimFrom_succ]
  simp only []
  rw [if_neg (by rw [hex]; simp [EXITCODE.NEED_REBOOT_DEVICE,
    EXITCODE.NEED_RECREATE_SIM]),
    if_pos ⟨by omega, hex⟩]
  refine ⟨t, ?_⟩
  simp only [ht]
  simp [plannerTeardown]

/-- C7.  In a simulator session the attempt loop runs the supervisor at
most 3 times; and when an attempt other than the last returns
`NEED_REBOOT_DEVICE`, the planner shuts the current simulator down and
then re-runs the test on the *same* simulator instance in the next
attempt — between the two `runTest` actions the trace holds only the
`shutdown` of that instance (preceded on a legacy toolchain, Xcode < 900,
by a `QuitSimulatorApp`), so the simulator is neither deleted nor replaced
by a newly created one, and the same shut-down instance is booted again by
the next attempt's run. -/
theorem C7_theorem (xcodeVer : ℕ) (envs : ℕ → PlannerEnv) :
    countRunTests (runSimulatorTest xcodeVer envs).1 ≤ 3 ∧
    (∀ (i fuel : ℕ) (rb : Bool) (simId : String),
      (envs i).exitCode = EXITCODE.NEED_REBOOT_DEVICE →
      ∃ rest, (runSimulatorTestFrom xcodeVer envs i rb simId
          (fuel + 1 + 1)).1
        = (if rb then [] else [SimAction.create (envs i).newSimId])
          ++ SimAction.runTest (if rb then simId else (envs i).newSimId)
            :: ((if xcodeVer < 900 then [SimAction.quitSimApp] else [])
              ++ SimAction.shutdown
                  (if rb then simId else (envs i).newSimId)
                :: SimAction.runTest
                  (if rb then simId else (envs i).newSimId)
                :: rest)) := by
  constructor
  · unfold runSimulatorTest
    simp only []
    rw [countRunTests_append]
    have h := countRunTests_le xcodeVer envs 3 0 false ""
    have hq : countRunTests (if xcodeVer < 900 then [SimAction.quitSimApp]
        else []) = 0 := by
      split_ifs <;> rfl
    omega
  · exact fun i fuel rb simId hex =>
      reboot_prefix xcodeVer envs i fuel rb simId hex

/-- Witness for `C7_theorem`: a first attempt exiting `NEED_REBOOT_DEVICE`
on a legacy toolchain (Xcode 800). -/
theorem C7_witness :
    ((fun i : ℕ => if i = 0 then (⟨"A", 13⟩ : PlannerEnv) else ⟨"B", 0⟩) 0).exitCode
      = EXITCODE.NEED_REBOOT_DEVICE ∧
    ∃ rest, (runSimulatorTestFrom 800
        (fun i : ℕ => if i = 0 then (⟨"A", 13⟩ : PlannerEnv) else ⟨"B", 0⟩)
        0 false "" (0 + 1 + 1)).1
      = [SimAction.create "A"]
        ++ SimAction.runTest "A"
          :: ([SimAction.quitSimApp]
            ++ SimAction.shutdown "A" :: SimAction.runTest "A" :: rest) := by
  refine ⟨by decide, ?_⟩
  have h := (C7_theorem 800
    (fun i : ℕ => if i = 0 then (⟨"A", 13⟩ : PlannerEnv) else ⟨"B", 0⟩)).2
    0 (0 + 1 + 1) false "" (by decide)
  simpa using h
